import Mathlib

/-!
Shallow embedding of the shop-ai-chatbot backend core: the provider clients
(`generateWithOpenAI`, `generateWithGroq`, their `validateConfig` companions),
the reply generator `generateReply` with its bounded retry/backoff loop, the
conversation store, and the `POST /chat/message` handler.

Modelling conventions:
- Environment variables are an explicit `Env` record (`process.env` reads).
- The outbound network call of a provider client is an oracle
  `Nat → ProviderOutcome` giving, per attempt index, either a thrown SDK error
  (carrying the status-code metadata JavaScript attaches to it) or an HTTP
  success whose `choices[0]?.message?.content` field is an `Option String`
  (`none` models `null`/`undefined`; `some ""` models an empty string, which
  is falsy in JavaScript just like `null`).
- Side effects (provider invocations, `setTimeout` sleeps, the `console.error`
  log that records provider name and attempt count) are reified as an `Event`
  trace returned alongside the result.
- `Except ThrownError α` models a JavaScript function that either returns or
  throws; `ThrownError` keeps the `message` and the (possibly absent)
  HTTP status attached to the error object.
- The relational store is a list of conversations; each conversation keeps its
  messages as a list in creation order (oldest first), which models the
  `orderBy createdAt asc` reads because messages are only ever
  appended.
-/

namespace ShopChat

/-- Role tag of an outbound chat message (embedding of the union type of
`messages` in the source). -/
inductive Role where
  | system
  | user
  | assistant
deriving DecidableEq, Repr

/-- An outbound chat message `{ role, content }` handed to a provider client. -/
structure ChatMessage where
  role : Role
  content : String
deriving DecidableEq, Repr

/-- A persisted / history message `{ sender, text }` as stored by the
conversation store and passed to `generateReply`. -/
structure Msg where
  sender : String
  text : String
deriving DecidableEq, Repr

/-- A thrown JavaScript error as observed by the catch blocks: its `message`
and the HTTP status code the retry loop extracts via
`error?.status || error?.statusCode || error?.response?.status` (collapsed to
one optional field). -/
structure ThrownError where
  message : String
  status : Option Nat
deriving DecidableEq, Repr

/-- The environment variables the core reads. -/
structure Env where
  LLM_PROVIDER : Option String
  OPENAI_API_KEY : Option String
  GROQ_API_KEY : Option String
deriving DecidableEq, Repr

/-- Embedding of `LLM_CONFIG.MAX_CONTEXT_MESSAGES` (src/unnamed/part_002,
config). -/
def MAX_CONTEXT_MESSAGES : Nat := 10

/-- Embedding of `LLM_CONFIG.MAX_TOKENS`. -/
def MAX_TOKENS : Nat := 200

/-- Embedding of `LLM_CONFIG.provider`, the or-default of
`process.env.LLM_PROVIDER` to the groq literal:
the JavaScript `||` falls through on the falsy values `undefined` and `""`. -/
def configProvider (env : Env) : String :=
  match env.LLM_PROVIDER with
  | none => "groq"
  | some p => if p = "" then "groq" else p

/-- Model of JavaScript `String.prototype.trim` (and of `String.trim` in the
sources): drop whitespace from both ends. Defined over the character list so
that it reduces during kernel evaluation. -/
def jsTrim (s : String) : String :=
  ⟨((s.data.dropWhile Char.isWhitespace).reverse.dropWhile Char.isWhitespace).reverse⟩

/-- Embedding of `generateWithOpenAI` (src/unnamed/part_002 lines 10-30)
restricted to its post-network part: given the
`completion.choices[0]?.message?.content` field, throw
the No-response-from-OpenAI error when it is falsy (null, undefined or the
empty string), else
return the trimmed text. -/
def generateWithOpenAI (rawContent : Option String) : Except ThrownError String :=
  match rawContent with
  | none => .error ⟨"No response from OpenAI", none⟩
  | some reply =>
    if reply = "" then .error ⟨"No response from OpenAI", none⟩
    else .ok (jsTrim reply)

/-- Embedding of `generateWithGroq` (src/unnamed/part_002 lines 48-68), same
shape as the OpenAI client. -/
def generateWithGroq (rawContent : Option String) : Except ThrownError String :=
  match rawContent with
  | none => .error ⟨"No response from Groq", none⟩
  | some reply =>
    if reply = "" then .error ⟨"No response from Groq", none⟩
    else .ok (jsTrim reply)

/-- Embedding of `validateOpenAIConfig`: throws when
the key is falsy, equals the placeholder literal, or trims to empty. -/
def validateOpenAIConfig (env : Env) : Except ThrownError Unit :=
  match env.OPENAI_API_KEY with
  | none => .error ⟨"OPENAI_API_KEY is not configured. Please set it in your .env file.", none⟩
  | some apiKey =>
    if apiKey = "" ∨ apiKey = "your-openai-api-key-here" ∨ jsTrim apiKey = "" then
      .error ⟨"OPENAI_API_KEY is not configured. Please set it in your .env file.", none⟩
    else .ok ()

/-- Embedding of `validateGroqConfig`: throws when
the key is falsy, equals the placeholder literal, or trims to empty. -/
def validateGroqConfig (env : Env) : Except ThrownError Unit :=
  match env.GROQ_API_KEY with
  | none => .error ⟨"GROQ_API_KEY is not configured. Please set it in your .env file.", none⟩
  | some apiKey =>
    if apiKey = "" ∨ apiKey = "your-groq-api-key-here" ∨ jsTrim apiKey = "" then
      .error ⟨"GROQ_API_KEY is not configured. Please set it in your .env file.", none⟩
    else .ok ()

/-- The provider-validation dispatch at the top of `generateReply`
(src/unnamed/part_003 lines 94-103): groq and openai validate their key, any
other provider name throws `Unsupported LLM provider`. -/
def validateActive (env : Env) : Except ThrownError Unit :=
  let provider := configProvider env
  if provider = "groq" then validateGroqConfig env
  else if provider = "openai" then validateOpenAIConfig env
  else
    .error ⟨"Unsupported LLM provider: " ++ provider ++ ". Supported providers: groq, openai", none⟩

/-- Embedding of the system prompt constant `SYSTEM_PROMPT` with the embedded
`FAQ_KNOWLEDGE` text (src/unnamed/part_003 lines 48-84). Its exact content is
irrelevant to the claims; it is one fixed string. -/
def SYSTEM_PROMPT : String :=
  "You are a helpful and friendly support agent for a small e-commerce store. \n" ++
  "Answer customer questions clearly and concisely. Be professional but warm.\n\n" ++
  "CRITICAL GUIDELINES:\n" ++
  "\nShipping:\n- Orders ship within 3-5 business days\n- We ship to USA and India\n" ++
  "- Free shipping on orders over $50\n\nReturns Policy:\n- 7-day return window for unused items\n" ++
  "- Items must be in original packaging\n- Contact support to initiate a return\n\n" ++
  "Products:\n- All products are quality tested\n- We offer a 30-day satisfaction guarantee\n" ++
  "- Customer support is available 24/7\n\nPayment:\n- We accept all major credit cards\n" ++
  "- Secure checkout process\n- Order confirmation sent via email\n\n" ++
  "IMPORTANT RULES:\n" ++
  "1. Always stay polite and professional, even if the customer is frustrated\n" ++
  "2. ONLY answer questions about: shipping, returns, products, payment, or general store policies\n" ++
  "3. If asked about topics outside these areas, politely redirect to support@store.com.\n" ++
  "4. DO NOT make up or guess policies - only use the information provided above\n" ++
  "5. If you don\x27t know something, acknowledge it and suggest they contact support\n" ++
  "6. Keep responses brief and helpful (2-3 sentences typically)\n" ++
  "7. Never apologize excessively - be confident and helpful"

/-- JavaScript `Array.prototype.slice(-n)`: the last `min n l.length` elements
in their original order (all of them when the list is shorter than `n`). -/
def sliceLast (n : Nat) (l : List α) : List α :=
  l.drop (l.length - n)

/-- The role mapping of the history loop in `generateReply` (line 114):
the conditional sending sender user to role user and all else to assistant. -/
def roleOfSender (sender : String) : Role :=
  if sender = "user" then .user else .assistant

/-- Embedding of the outbound-message construction of `generateReply`
(src/unnamed/part_003 lines 106-120): system prompt first, then the last
`MAX_CONTEXT_MESSAGES` history entries mapped to roles, then the new user
message with role `user`. -/
def buildMessages (conversationHistory : List Msg) (userMessage : String) : List ChatMessage :=
  ⟨Role.system, SYSTEM_PROMPT⟩ ::
    ((sliceLast MAX_CONTEXT_MESSAGES conversationHistory).map
        (fun msg => ⟨roleOfSender msg.sender, msg.text⟩)
      ++ [⟨Role.user, userMessage⟩])

/-- One outcome of the outbound provider call at a given attempt: either the
SDK throws (network failure or provider error status), or the HTTP call
succeeds and yields a `choices[0]?.message?.content` field. -/
inductive ProviderOutcome where
  | thrown (e : ThrownError)
  | completion (rawContent : Option String)
deriving DecidableEq, Repr

/-- Observable side effects of `generateReply`, in order: each provider
invocation (with the message list it was handed), each backoff sleep
(milliseconds), and the terminal `console.error` record carrying the provider
name and the attempt count (`attempt + 1`). -/
inductive Event where
  | providerCall (messages : List ChatMessage)
  | sleepFor (ms : Nat)
  | errorLog (provider : String) (attempt : Nat)
deriving DecidableEq, Repr

/-- The provider dispatch inside the retry loop (lines 130-134): groq goes to
the Groq client, everything else (i.e. openai, after validation) to the OpenAI
client; composed with the post-network part of the client. -/
def runProviderCall (provider : String) (o : ProviderOutcome) : Except ThrownError String :=
  match o with
  | .thrown e => .error e
  | .completion raw =>
    if provider = "groq" then generateWithGroq raw else generateWithOpenAI raw

/-- The retry loop of `generateReply` (src/unnamed/part_003 lines 126-175),
with `fuel` the number of loop iterations still permitted
(`retries + 1 - attempt`). On success return the reply; on a 429 failure with
attempts remaining sleep `2^attempt * 1000` ms and retry; otherwise log the
provider name and attempt count and rethrow the error (the code also copies
the extracted status onto the error, which the model keeps in `e.status`).
Exhausting the fuel models falling out of the `for` loop into the final
final throw of the failed-after-retries error. -/
def generateLoop (provider : String) (messages : List ChatMessage)
    (oracle : Nat → ProviderOutcome) (retries : Nat) :
    Nat → Nat → List Event × Except ThrownError String
  | _, 0 => ([], .error ⟨"Failed to generate reply after retries", none⟩)
  | attempt, fuel + 1 =>
    match runProviderCall provider (oracle attempt) with
    | .ok reply => ([.providerCall messages], .ok reply)
    | .error e =>
      if e.status = some 429 ∧ attempt < retries then
        let rest := generateLoop provider messages oracle retries (attempt + 1) fuel
        (.providerCall messages :: .sleepFor (2 ^ attempt * 1000) :: rest.1, rest.2)
      else
        ([.providerCall messages, .errorLog provider (attempt + 1)], .error e)

/-- Embedding of `generateReply` (src/unnamed/part_003 lines 89-175): validate
the active provider configuration (throwing before any provider call on
failure), build the bounded outbound message list, then run the retry loop.
The source defaults `retries` to 2; callers of this model pass it
explicitly. -/
def generateReply (env : Env) (oracle : Nat → ProviderOutcome)
    (conversationHistory : List Msg) (userMessage : String) (retries : Nat) :
    List Event × Except ThrownError String :=
  match validateActive env with
  | .error e => ([], .error e)
  | .ok _ =>
    let messages := buildMessages conversationHistory userMessage
    generateLoop (configProvider env) messages oracle retries 0 (retries + 1)

/-- A persisted conversation: its id (doubling as the session token) and its
messages in creation order (oldest first). -/
structure Conversation where
  id : String
  messages : List Msg
deriving DecidableEq, Repr

/-- The relational store: the conversation rows plus a counter from which the
database mints fresh unique ids. -/
structure Store where
  convs : List Conversation
  nextId : Nat
deriving DecidableEq, Repr

/-- The id the database assigns to the `n`-th created conversation. -/
def freshId (n : Nat) : String :=
  "conv-" ++ toString n

/-- Lookup of `prisma.conversation.findUnique({ where: { id } })`. -/
def findConv (st : Store) (id : String) : Option Conversation :=
  st.convs.find? (fun c => c.id = id)

/-- Creation of a fresh conversation with no messages
(`prisma.conversation.create({ data: {} })`). -/
def createConversation (st : Store) : Conversation × Store :=
  let c : Conversation := ⟨freshId st.nextId, []⟩
  (c, ⟨st.convs ++ [c], st.nextId + 1⟩)

/-- Embedding of `getOrCreateConversation` (src/unnamed/part_003 of the
conversation service, lines 3-20): when `sessionId` is truthy (a non-empty
string) and resolves, return the stored conversation with its
creation-ordered messages; otherwise create and return a new one. -/
def getOrCreateConversation (sessionId : Option String) (st : Store) :
    Conversation × Store :=
  match sessionId with
  | some sid =>
    if sid = "" then createConversation st
    else
      match findConv st sid with
      | some conversation => (conversation, st)
      | none => createConversation st
  | none => createConversation st

/-- Embedding of `saveMessage`: append one message (creation order = list
order) to the conversation with the given id. -/
def saveMessage (conversationId : String) (sender : String) (text : String)
    (st : Store) : Store :=
  ⟨st.convs.map (fun c =>
      if c.id = conversationId then ⟨c.id, c.messages ++ [⟨sender, text⟩]⟩ else c),
    st.nextId⟩

/-- A JSON value bound to the `message` field of the request body: a string,
or any non-string value (whose exact shape never matters — both the falsy
check and the `typeof` check send every non-string to the 400 branch). -/
inductive ReqValue where
  | str (s : String)
  | nonString
deriving DecidableEq, Repr

/-- The parsed body of `POST /chat/message`: `{ message, sessionId }`, either
field possibly absent. -/
structure ChatRequest where
  message : Option ReqValue
  sessionId : Option String
deriving DecidableEq, Repr

/-- The HTTP response of the handler: the status code and the JSON body
fields it sets. -/
structure ChatResponse where
  status : Nat
  reply : Option String
  sessionId : Option String
  errorMsg : Option String
deriving DecidableEq, Repr

/-- What one run of the handler produces: the response, the new store, and
the event trace of the embedded `generateReply` call. -/
structure PostResult where
  resp : ChatResponse
  store : Store
  events : List Event
deriving DecidableEq, Repr

/-- String containment test (`String.prototype.includes`). -/
def containsStr (haystack needle : String) : Bool :=
  haystack.toList.tails.any (fun t => needle.toList.isPrefixOf t)

/-- The fixed configuration-problem fallback reply of the handler. -/
def configFallback : String :=
  "Configuration error: LLM API key is not set. Please check your backend configuration."

/-- The fixed 401 authentication-problem fallback reply of the handler. -/
def authFallback : String :=
  "Authentication error: Invalid API key. Please check your API key in the .env file."

/-- The fixed 429 transient-overload fallback reply of the handler. -/
def overloadFallback : String :=
  "I\x27m experiencing high traffic right now. Please wait a moment and try again."

/-- The fixed generic fallback reply of the handler. -/
def genericFallback : String :=
  "I\x27m sorry, I\x27m having trouble processing your request right now. Please try again in a moment, or contact our support team for immediate assistance."

/-- The fallback-reply selection of the catch block of the handler around
`generateReply` (src/backend/src/index.ts lines 77-91), keyed on the thrown
message and status of the thrown error. -/
def fallbackFor (e : ThrownError) : String :=
  if containsStr e.message "API_KEY" || containsStr e.message "not configured" then
    configFallback
  else if e.status = some 401 then authFallback
  else if e.status = some 429 then overloadFallback
  else genericFallback

/-- The JavaScript `sessionId || null` coercion at the `getOrCreateConversation`
call site: an empty string is falsy and becomes null. -/
def jsOrNull (sessionId : Option String) : Option String :=
  match sessionId with
  | some s => if s = "" then none else some s
  | none => none

/-- Embedding of the `POST /chat/message` handler (src/backend/src/index.ts
lines 46-107): validate the message (400 with no side effects on failure),
get or create the conversation, persist the trimmed user message, call
`generateReply` on the history snapshot fetched with the conversation
(`retries` defaulted to 2), substitute a fallback reply when it throws,
persist the assistant reply under sender `ai`, and answer 200 with the reply
and the conversation id as session id. -/
def postChatMessage (env : Env) (oracle : Nat → ProviderOutcome)
    (req : ChatRequest) (st : Store) : PostResult :=
  match req.message with
  | none => ⟨⟨400, none, none, some "Message cannot be empty"⟩, st, []⟩
  | some .nonString => ⟨⟨400, none, none, some "Message cannot be empty"⟩, st, []⟩
  | some (.str message) =>
    if message = "" ∨ jsTrim message = "" then
      ⟨⟨400, none, none, some "Message cannot be empty"⟩, st, []⟩
    else if message.length > 1000 then
      ⟨⟨400, none, none, some "Message is too long (max 1000 characters)"⟩, st, []⟩
    else
      let fetched := getOrCreateConversation (jsOrNull req.sessionId) st
      let conversationId := fetched.1.id
      let st2 := saveMessage conversationId "user" (jsTrim message) fetched.2
      let history := fetched.1.messages
      let gen := generateReply env oracle history (jsTrim message) 2
      let aiReply :=
        match gen.2 with
        | .ok t => t
        | .error e => fallbackFor e
      let st3 := saveMessage conversationId "ai" aiReply st2
      ⟨⟨200, some aiReply, some conversationId, none⟩, st3, gen.1⟩

/-! Theorems about the embedded program. -/

/-- C8: a provider client returns the completion text with leading and
trailing whitespace trimmed exactly when the provider returned text, and
fails with the EmptyCompletion error exactly when the provider returned no
text (a null/undefined/empty content field); this holds for the OpenAI and
the Groq client alike. -/
theorem clients_trim_or_emptyCompletion (raw : Option String) :
    ((∃ e, generateWithOpenAI raw = Except.error e) ↔ raw = none ∨ raw = some "") ∧
    ((∃ e, generateWithGroq raw = Except.error e) ↔ raw = none ∨ raw = some "") ∧
    (∀ s, raw = some s → s ≠ "" →
      generateWithOpenAI raw = Except.ok (jsTrim s) ∧
      generateWithGroq raw = Except.ok (jsTrim s)) := by
  cases raw with
  | none => simp [generateWithOpenAI, generateWithGroq]
  | some s =>
    by_cases hs : s = "" <;>
      simp [generateWithOpenAI, generateWithGroq, hs]

/-- Witness for `clients_trim_or_emptyCompletion` at a concrete completion. -/
theorem clients_trim_or_emptyCompletion_wit :
    generateWithOpenAI (some " hi ") = Except.ok (jsTrim " hi ") ∧
    generateWithGroq (some " hi ") = Except.ok (jsTrim " hi ") :=
  (clients_trim_or_emptyCompletion (some " hi ")).2.2 " hi " rfl (by decide)

/-- C4: `validateOpenAIConfig`/`validateGroqConfig` fail exactly when the
key of the provider is absent, empty or whitespace-only (both subsumed by a trim
to the empty string, and the absent/empty cases are also the falsy check of
the source), or equal to the placeholder value of the provider; and whenever the
validation dispatched by `generateReply` fails, `generateReply` returns that
error with an empty event trace — zero provider invocations, no sleep, no
retry. -/
theorem validateConfig_gates_generateReply (env : Env) :
    ((∃ e, validateOpenAIConfig env = Except.error e) ↔
      env.OPENAI_API_KEY = none ∨
        ∃ k, env.OPENAI_API_KEY = some k ∧
          (jsTrim k = "" ∨ k = "your-openai-api-key-here")) ∧
    ((∃ e, validateGroqConfig env = Except.error e) ↔
      env.GROQ_API_KEY = none ∨
        ∃ k, env.GROQ_API_KEY = some k ∧
          (jsTrim k = "" ∨ k = "your-groq-api-key-here")) ∧
    (∀ e oracle conversationHistory userMessage retries,
      validateActive env = Except.error e →
      generateReply env oracle conversationHistory userMessage retries =
        ([], Except.error e)) := by
  refine ⟨?_, ?_, ?_⟩
  · cases hk : env.OPENAI_API_KEY with
    | none => simp [validateOpenAIConfig, hk]
    | some k =>
      simp only [validateOpenAIConfig, hk]
      split_ifs with h
      · simp only [Except.error.injEq, exists_eq']
        constructor
        · intro _
          refine Or.inr ⟨k, rfl, ?_⟩
          rcases h with h | h | h
          · exact Or.inl (by simp [h, jsTrim])
          · exact Or.inr h
          · exact Or.inl h
        · intro _; trivial
      · push_neg at h
        constructor
        · rintro ⟨e, he⟩; cases he
        · rintro (hcontra | ⟨k', hk', hbad⟩)
          · cases hcontra
          · cases hk'
            rcases hbad with hbad | hbad
            · exact absurd hbad h.2.2
            · exact absurd hbad h.2.1
  · cases hk : env.GROQ_API_KEY with
    | none => simp [validateGroqConfig, hk]
    | some k =>
      simp only [validateGroqConfig, hk]
      split_ifs with h
      · simp only [Except.error.injEq, exists_eq']
        constructor
        · intro _
          refine Or.inr ⟨k, rfl, ?_⟩
          rcases h with h | h | h
          · exact Or.inl (by simp [h, jsTrim])
          · exact Or.inr h
          · exact Or.inl h
        · intro _; trivial
      · push_neg at h
        constructor
        · rintro ⟨e, he⟩; cases he
        · rintro (hcontra | ⟨k', hk', hbad⟩)
          · cases hcontra
          · cases hk'
            rcases hbad with hbad | hbad
            · exact absurd hbad h.2.2
            · exact absurd hbad h.2.1
  · intro e oracle conversationHistory userMessage retries hval
    simp [generateReply, hval]

/-- Witness for `validateConfig_gates_generateReply`: with the OpenAI provider
selected and no OpenAI key set, `generateReply` returns the missing-credential
error and performs zero provider calls. -/
theorem validateConfig_gates_generateReply_wit :
    generateReply ⟨some "openai", none, some "k"⟩ (fun _ => .completion (some "x")) [] "hi" 2 =
      ([], Except.error
        ⟨"OPENAI_API_KEY is not configured. Please set it in your .env file.", none⟩) :=
  (validateConfig_gates_generateReply ⟨some "openai", none, some "k"⟩).2.2
    ⟨"OPENAI_API_KEY is not configured. Please set it in your .env file.", none⟩
    (fun _ => .completion (some "x")) [] "hi" 2 rfl

/-- C7: `getOrCreateConversation` never fails: a present non-empty session id
that resolves returns the stored conversation (with its creation-ordered
messages) and leaves the store unchanged; an absent, empty or unknown id
creates and returns a fresh conversation with an empty message list. -/
theorem getOrCreateConversation_total (sid : Option String) (st : Store) :
    (∀ s c, sid = some s → s ≠ "" → findConv st s = some c →
      getOrCreateConversation sid st = (c, st)) ∧
    (sid = none ∨ sid = some "" ∨ (∃ s, sid = some s ∧ findConv st s = none) →
      getOrCreateConversation sid st =
        (⟨freshId st.nextId, []⟩,
          ⟨st.convs ++ [⟨freshId st.nextId, []⟩], st.nextId + 1⟩)) := by
  constructor
  · intro s c hsid hs hfind
    subst hsid
    simp [getOrCreateConversation, hs, hfind]
  · rintro (rfl | rfl | ⟨s, rfl, hfind⟩)
    · rfl
    · rfl
    · by_cases hs : s = ""
      · simp [getOrCreateConversation, hs, createConversation]
      · simp [getOrCreateConversation, hs, hfind, createConversation]

/-- Witness for `getOrCreateConversation_total`: a store holding one
conversation, looked up by its id and by an unknown id. -/
theorem getOrCreateConversation_total_wit :
    getOrCreateConversation (some "c1") ⟨[⟨"c1", [⟨"user", "a"⟩]⟩], 5⟩ =
      (⟨"c1", [⟨"user", "a"⟩]⟩, ⟨[⟨"c1", [⟨"user", "a"⟩]⟩], 5⟩) ∧
    getOrCreateConversation (some "nope") ⟨[⟨"c1", [⟨"user", "a"⟩]⟩], 5⟩ =
      (⟨"conv-5", []⟩, ⟨[⟨"c1", [⟨"user", "a"⟩]⟩, ⟨"conv-5", []⟩], 6⟩) :=
  ⟨(getOrCreateConversation_total (some "c1") ⟨[⟨"c1", [⟨"user", "a"⟩]⟩], 5⟩).1
      "c1" ⟨"c1", [⟨"user", "a"⟩]⟩ rfl (by decide) rfl,
    (getOrCreateConversation_total (some "nope") ⟨[⟨"c1", [⟨"user", "a"⟩]⟩], 5⟩).2
      (Or.inr (Or.inr ⟨"nope", rfl, rfl⟩))⟩

/-- Every provider-call event the retry loop emits carries the one message
list the loop was given. -/
theorem generateLoop_call_messages (provider : String) (messages : List ChatMessage)
    (oracle : Nat → ProviderOutcome) (retries : Nat) :
    ∀ fuel attempt ms,
      Event.providerCall ms ∈ (generateLoop provider messages oracle retries attempt fuel).1 →
      ms = messages := by
  intro fuel
  induction fuel with
  | zero =>
    intro attempt ms h
    simp [generateLoop] at h
  | succ n ih =>
    intro attempt ms h
    rw [generateLoop] at h
    cases hr : runProviderCall provider (oracle attempt) with
    | ok reply =>
      rw [hr] at h
      simpa using h
    | error e =>
      rw [hr] at h
      by_cases hc : e.status = some 429 ∧ attempt < retries
      · simp only [if_pos hc, List.mem_cons] at h
        rcases h with h | h | h
        · exact (Event.providerCall.injEq ms messages).mp h
        · cases h
        · exact ih (attempt + 1) ms h
      · simp only [if_neg hc, List.mem_cons] at h
        rcases h with h | h | h
        · exact (Event.providerCall.injEq ms messages).mp h
        · cases h
        · cases h

/-- C1: every outbound message list `generateReply` hands to a provider is
exactly one system-instruction entry, followed by the last
`MAX_CONTEXT_MESSAGES` history entries in their original oldest-first order
(all of them when the history is shorter), followed by the new user message
with role `user`; when the history is longer than `MAX_CONTEXT_MESSAGES`,
exactly `MAX_CONTEXT_MESSAGES` of its entries appear — never the full
history. -/
theorem generateReply_context_window (env : Env) (oracle : Nat → ProviderOutcome)
    (history : List Msg) (userMessage : String) (retries : Nat) (ms : List ChatMessage)
    (hmem : Event.providerCall ms ∈ (generateReply env oracle history userMessage retries).1) :
    ms = ⟨Role.system, SYSTEM_PROMPT⟩ ::
        ((history.drop (history.length - MAX_CONTEXT_MESSAGES)).map
            (fun m => ⟨roleOfSender m.sender, m.text⟩)
          ++ [⟨Role.user, userMessage⟩]) ∧
    (history.length ≤ MAX_CONTEXT_MESSAGES →
      history.drop (history.length - MAX_CONTEXT_MESSAGES) = history) ∧
    (MAX_CONTEXT_MESSAGES < history.length →
      (history.drop (history.length - MAX_CONTEXT_MESSAGES)).length = MAX_CONTEXT_MESSAGES) := by
  refine ⟨?_, ?_, ?_⟩
  · cases hv : validateActive env with
    | error e =>
      simp [generateReply, hv] at hmem
    | ok u =>
      simp only [generateReply, hv] at hmem
      have := generateLoop_call_messages (configProvider env)
        (buildMessages history userMessage) oracle retries (retries + 1) 0 ms hmem
      simpa [buildMessages, sliceLast] using this
  · intro hle
    have h0 : history.length - MAX_CONTEXT_MESSAGES = 0 := Nat.sub_eq_zero_of_le hle
    simp [h0]
  · intro hlt
    rw [List.length_drop]
    omega

/-- A twelve-entry history used to witness the context-window bound. -/
def histTwelve : List Msg :=
  [⟨"user", "m1"⟩, ⟨"ai", "m2"⟩, ⟨"user", "m3"⟩, ⟨"ai", "m4"⟩, ⟨"user", "m5"⟩,
   ⟨"ai", "m6"⟩, ⟨"user", "m7"⟩, ⟨"ai", "m8"⟩, ⟨"user", "m9"⟩, ⟨"ai", "m10"⟩,
   ⟨"user", "m11"⟩, ⟨"ai", "m12"⟩]

/-- Witness for `generateReply_context_window`: with a 12-entry history the
single outbound list contains exactly the 10 most recent entries between the
system prompt and the new user message. -/
theorem generateReply_context_window_wit :
    MAX_CONTEXT_MESSAGES < histTwelve.length ∧
    buildMessages histTwelve "q" =
      ⟨Role.system, SYSTEM_PROMPT⟩ ::
        ((histTwelve.drop (histTwelve.length - MAX_CONTEXT_MESSAGES)).map
            (fun m => ⟨roleOfSender m.sender, m.text⟩)
          ++ [⟨Role.user, "q"⟩]) ∧
    (histTwelve.drop (histTwelve.length - MAX_CONTEXT_MESSAGES)).length =
      MAX_CONTEXT_MESSAGES :=
  have h := generateReply_context_window ⟨none, none, some "k"⟩
    (fun _ => .completion (some "ok")) histTwelve "q" 2 (buildMessages histTwelve "q")
    (List.mem_singleton_self (Event.providerCall (buildMessages histTwelve "q")))
  ⟨by decide, h.1, h.2.2 (by decide)⟩

/-- C10: the history-to-prompt mapping sends sender `user` to role `user` and
every other sender (including the persisted `ai` tag) to role `assistant`,
and the outbound list always ends with the new user message under role
`user` — hence it is non-empty with a final `user` entry, as the provider
clients expect. -/
theorem buildMessages_roles_and_last (history : List Msg) (userMessage : String)
    (m : Msg) (hm : m.sender ≠ "user") :
    roleOfSender "user" = Role.user ∧
    roleOfSender m.sender = Role.assistant ∧
    buildMessages history userMessage ≠ [] ∧
    (buildMessages history userMessage).getLast? = some ⟨Role.user, userMessage⟩ := by
  refine ⟨rfl, by simp [roleOfSender, hm], by simp [buildMessages], ?_⟩
  rw [buildMessages, ← List.cons_append, List.getLast?_concat]

/-- Witness for `buildMessages_roles_and_last` on a one-entry `ai` history. -/
theorem buildMessages_roles_and_last_wit :
    roleOfSender "user" = Role.user ∧
    roleOfSender "ai" = Role.assistant ∧
    buildMessages [⟨"ai", "b"⟩] "q" ≠ [] ∧
    (buildMessages [⟨"ai", "b"⟩] "q").getLast? = some ⟨Role.user, "q"⟩ :=
  buildMessages_roles_and_last [⟨"ai", "b"⟩] "q" ⟨"ai", "x"⟩ (by decide)

/-- One unfolding step of the retry loop. -/
theorem generateLoop_succ (provider : String) (messages : List ChatMessage)
    (oracle : Nat → ProviderOutcome) (retries attempt fuel : Nat) :
    generateLoop provider messages oracle retries attempt (fuel + 1) =
      match runProviderCall provider (oracle attempt) with
      | .ok reply => ([.providerCall messages], .ok reply)
      | .error e =>
        if e.status = some 429 ∧ attempt < retries then
          let rest := generateLoop provider messages oracle retries (attempt + 1) fuel
          (.providerCall messages :: .sleepFor (2 ^ attempt * 1000) :: rest.1, rest.2)
        else
          ([.providerCall messages, .errorLog provider (attempt + 1)], .error e) := rfl

/-- C2: with the default `retries = 2`, a provider failing with status 429 on
the first two attempts and succeeding on the third makes `generateReply`
return the successful text after exactly three provider invocations,
interleaved with backoff sleeps of `2^attempt` seconds: 1000 ms after the
first failed attempt and 2000 ms after the second. -/
theorem generateReply_429_backoff (env : Env) (oracle : Nat → ProviderOutcome)
    (history : List Msg) (userMessage reply : String) (e0 e1 : ThrownError)
    (hv : validateActive env = Except.ok ())
    (h0 : runProviderCall (configProvider env) (oracle 0) = Except.error e0)
    (hs0 : e0.status = some 429)
    (h1 : runProviderCall (configProvider env) (oracle 1) = Except.error e1)
    (hs1 : e1.status = some 429)
    (h2 : runProviderCall (configProvider env) (oracle 2) = Except.ok reply) :
    generateReply env oracle history userMessage 2 =
      ([.providerCall (buildMessages history userMessage), .sleepFor 1000,
        .providerCall (buildMessages history userMessage), .sleepFor 2000,
        .providerCall (buildMessages history userMessage)], Except.ok reply) := by
  simp [generateReply, hv, generateLoop_succ, h0, h1, h2, hs0, hs1]

/-- A provider behavior that is rate-limited on the first two attempts and
succeeds on the third. -/
def oracle429Twice : Nat → ProviderOutcome :=
  fun n =>
    if n < 2 then .thrown ⟨"rate limited", some 429⟩
    else .completion (some " Hello! ")

/-- Witness for `generateReply_429_backoff`: the concrete 429-429-success
provider yields the trimmed reply after two sleeps and three calls. -/
theorem generateReply_429_backoff_wit :
    generateReply ⟨some "groq", none, some "k1"⟩ oracle429Twice [] "q" 2 =
      ([.providerCall (buildMessages [] "q"), .sleepFor 1000,
        .providerCall (buildMessages [] "q"), .sleepFor 2000,
        .providerCall (buildMessages [] "q")], Except.ok "Hello!") :=
  generateReply_429_backoff ⟨some "groq", none, some "k1"⟩ oracle429Twice [] "q" "Hello!"
    ⟨"rate limited", some 429⟩ ⟨"rate limited", some 429⟩ rfl rfl rfl rfl rfl rfl

/-- The event trace of `k` consecutive rate-limited attempts starting at
attempt `a`: each provider call followed by its exponential-backoff sleep of
`2 ^ attempt * 1000` ms. -/
def backoffEvents (messages : List ChatMessage) : Nat → Nat → List Event
  | _, 0 => []
  | a, k + 1 =>
    .providerCall messages :: .sleepFor (2 ^ a * 1000) :: backoffEvents messages (a + 1) k

/-- A backoff trace of `k` rate-limited attempts contains exactly `k`
provider calls. -/
theorem backoffEvents_count (messages : List ChatMessage) :
    ∀ k a, (backoffEvents messages a k).count (Event.providerCall messages) = k := by
  intro k
  induction k with
  | zero => intro a; rfl
  | succ n ih =>
    intro a
    simp [backoffEvents, List.count_cons, ih]

/-- General shape of the retry loop at a terminal failure: started at attempt
`a`, after `k` rate-limited failures the failure at attempt `a + k` is
terminal (its status is not 429, or no retries remain), so the loop stops
there, logs the provider and the attempt count, and propagates the error. -/
theorem generateLoop_terminal (provider : String) (messages : List ChatMessage)
    (oracle : Nat → ProviderOutcome) (retries : Nat) :
    ∀ k a fuel e, a + fuel = retries + 1 → a + k ≤ retries →
      (∀ i, i < k → ∃ ei,
        runProviderCall provider (oracle (a + i)) = Except.error ei ∧
          ei.status = some 429) →
      runProviderCall provider (oracle (a + k)) = Except.error e →
      (e.status ≠ some 429 ∨ a + k = retries) →
      generateLoop provider messages oracle retries a fuel =
        (backoffEvents messages a k ++
          [Event.providerCall messages, Event.errorLog provider (a + k + 1)], Except.error e) := by
  intro k
  induction k with
  | zero =>
    intro a fuel e hfuel hle h429 he hterm
    obtain ⟨f, rfl⟩ : ∃ f, fuel = f + 1 := ⟨fuel - 1, by omega⟩
    rw [Nat.add_zero] at he hterm
    have hcond : ¬(e.status = some 429 ∧ a < retries) := by
      rintro ⟨h1, h2⟩
      rcases hterm with h | h
      · exact h h1
      · omega
    rw [generateLoop_succ, he]
    dsimp only
    rw [if_neg hcond]
    simp [backoffEvents]
  | succ k ih =>
    intro a fuel e hfuel hle h429 he hterm
    obtain ⟨f, rfl⟩ : ∃ f, fuel = f + 1 := ⟨fuel - 1, by omega⟩
    obtain ⟨e0, he0, hs0⟩ := h429 0 (Nat.succ_pos k)
    rw [Nat.add_zero] at he0
    have hcond : e0.status = some 429 ∧ a < retries := ⟨hs0, by omega⟩
    rw [generateLoop_succ, he0]
    dsimp only
    rw [if_pos hcond]
    have harith : ∀ i : Nat, a + 1 + i = a + (i + 1) := fun i => by omega
    have ih' := ih (a + 1) f e (by omega) (by omega)
      (fun i hi => by rw [harith i]; exact h429 (i + 1) (by omega))
      (by rw [harith k]; exact he)
      (by
        rcases hterm with h | h
        · exact Or.inl h
        · exact Or.inr (by omega))
    rw [ih']
    have hidx : a + 1 + k + 1 = a + (k + 1) + 1 := by omega
    rw [hidx]
    simp [backoffEvents]

/-- C5: for every terminal provider failure — a failure whose status is not
429 at any attempt `k` (reached after `k` rate-limited failures), or a 429
failure when no retries remain (`k = retries`) — `generateReply` makes no
further provider invocations: its trace is the `k` backoff rounds followed by
one final provider call and the log record carrying the provider name and the
attempt count `k + 1` (so exactly `k + 1` invocations, one in the 401-first
case), and the failure is propagated to the caller. -/
theorem generateReply_terminal_failure (env : Env) (oracle : Nat → ProviderOutcome)
    (history : List Msg) (userMessage : String) (retries k : Nat) (e : ThrownError)
    (hv : validateActive env = Except.ok ())
    (hk : k ≤ retries)
    (h429 : ∀ i, i < k → ∃ ei,
      runProviderCall (configProvider env) (oracle i) = Except.error ei ∧
        ei.status = some 429)
    (he : runProviderCall (configProvider env) (oracle k) = Except.error e)
    (hterm : e.status ≠ some 429 ∨ k = retries) :
    generateReply env oracle history userMessage retries =
      (backoffEvents (buildMessages history userMessage) 0 k ++
        [Event.providerCall (buildMessages history userMessage),
          Event.errorLog (configProvider env) (k + 1)], Except.error e) ∧
    (backoffEvents (buildMessages history userMessage) 0 k ++
        [Event.providerCall (buildMessages history userMessage),
          Event.errorLog (configProvider env) (k + 1)]).count
        (Event.providerCall (buildMessages history userMessage)) = k + 1 := by
  constructor
  · have h := generateLoop_terminal (configProvider env)
      (buildMessages history userMessage) oracle retries k 0 (retries + 1) e
      (by omega) (by omega)
      (fun i hi => by simpa using h429 i hi)
      (by simpa using he)
      (by
        rcases hterm with h | h
        · exact Or.inl h
        · exact Or.inr (by omega))
    simp only [generateReply, hv]
    simpa using h
  · rw [List.count_append, backoffEvents_count]
    simp [List.count_cons]

/-- A provider behavior that always fails with status 401. -/
def oracle401 : Nat → ProviderOutcome :=
  fun _ => .thrown ⟨"Unauthorized", some 401⟩

/-- A provider behavior that always fails with status 429. -/
def oracle429Always : Nat → ProviderOutcome :=
  fun _ => .thrown ⟨"rate limited", some 429⟩

/-- A provider behavior that is rate-limited on the first attempt and fails
with status 401 on every later one. -/
def oracle429Then401 : Nat → ProviderOutcome :=
  fun n =>
    if n = 0 then .thrown ⟨"rate limited", some 429⟩
    else .thrown ⟨"Unauthorized", some 401⟩

/-- Witness for `generateReply_terminal_failure`: a 401 on the first attempt
ends after one call; a 429 followed by a 401 ends after two calls; three
consecutive 429s with `retries = 2` end after three calls. -/
theorem generateReply_terminal_failure_wit :
    (generateReply ⟨some "groq", none, some "k1"⟩ oracle401 [] "q" 2 =
      (backoffEvents (buildMessages [] "q") 0 0 ++
        [Event.providerCall (buildMessages [] "q"), Event.errorLog "groq" 1],
        Except.error ⟨"Unauthorized", some 401⟩)) ∧
    (generateReply ⟨some "groq", none, some "k1"⟩ oracle429Then401 [] "q" 2 =
      (backoffEvents (buildMessages [] "q") 0 1 ++
        [Event.providerCall (buildMessages [] "q"), Event.errorLog "groq" 2],
        Except.error ⟨"Unauthorized", some 401⟩)) ∧
    ((backoffEvents (buildMessages [] "q") 0 1 ++
        [Event.providerCall (buildMessages [] "q"), Event.errorLog "groq" 2]).count
        (Event.providerCall (buildMessages [] "q")) = 2) ∧
    (generateReply ⟨some "groq", none, some "k1"⟩ oracle429Always [] "q" 2 =
      (backoffEvents (buildMessages [] "q") 0 2 ++
        [Event.providerCall (buildMessages [] "q"), Event.errorLog "groq" 3],
        Except.error ⟨"rate limited", some 429⟩)) :=
  have h401 := generateReply_terminal_failure ⟨some "groq", none, some "k1"⟩ oracle401
    [] "q" 2 0 ⟨"Unauthorized", some 401⟩ rfl (by omega)
    (fun i hi => absurd hi (Nat.not_lt_zero i)) rfl (Or.inl (by decide))
  have hmix := generateReply_terminal_failure ⟨some "groq", none, some "k1"⟩ oracle429Then401
    [] "q" 2 1 ⟨"Unauthorized", some 401⟩ rfl (by omega)
    (fun i hi => by
      have h0 : i = 0 := by omega
      subst h0
      exact ⟨⟨"rate limited", some 429⟩, rfl, rfl⟩)
    rfl (Or.inl (by decide))
  have hall := generateReply_terminal_failure ⟨some "groq", none, some "k1"⟩ oracle429Always
    [] "q" 2 2 ⟨"rate limited", some 429⟩ rfl (by omega)
    (fun _ _ => ⟨⟨"rate limited", some 429⟩, rfl, rfl⟩) rfl (Or.inr rfl)
  ⟨h401.1, hmix.1, hmix.2, hall.1⟩

/-- When every attempt fails, the retry loop ends in a defined error. -/
theorem generateLoop_allFail (provider : String) (messages : List ChatMessage)
    (oracle : Nat → ProviderOutcome) (retries : Nat)
    (hfail : ∀ i, ∃ e, runProviderCall provider (oracle i) = Except.error e) :
    ∀ fuel attempt,
      ∃ e, (generateLoop provider messages oracle retries attempt fuel).2 = Except.error e := by
  intro fuel
  induction fuel with
  | zero => intro attempt; exact ⟨_, rfl⟩
  | succ n ih =>
    intro attempt
    obtain ⟨e, he⟩ := hfail attempt
    by_cases hc : e.status = some 429 ∧ attempt < retries
    · simpa [generateLoop_succ, he, hc] using ih (attempt + 1)
    · exact ⟨e, by simp [generateLoop_succ, he, hc]⟩

/-- C9: when every attempt of `generateReply` fails (the initial attempt and
all configured retries, never entering the success path), `generateReply`
terminates with a defined error — the retries-exhausted failure the loop
propagates — and never returns any string, in particular never a silent empty
one. -/
theorem generateReply_allFail_defined_error (env : Env) (oracle : Nat → ProviderOutcome)
    (history : List Msg) (userMessage : String) (retries : Nat)
    (hv : validateActive env = Except.ok ())
    (hfail : ∀ i, ∃ e, runProviderCall (configProvider env) (oracle i) = Except.error e) :
    (∃ e, (generateReply env oracle history userMessage retries).2 = Except.error e) ∧
    ∀ s, (generateReply env oracle history userMessage retries).2 ≠ Except.ok s := by
  have hg : (generateReply env oracle history userMessage retries).2 =
      (generateLoop (configProvider env) (buildMessages history userMessage) oracle retries 0
        (retries + 1)).2 := by
    simp [generateReply, hv]
  obtain ⟨e, he⟩ :=
    generateLoop_allFail (configProvider env) (buildMessages history userMessage) oracle retries
      hfail (retries + 1) 0
  refine ⟨⟨e, by rw [hg, he]⟩, ?_⟩
  intro s hs
  rw [hg, he] at hs
  cases hs

/-- A provider behavior that always fails with a plain network error. -/
def oracleBoom : Nat → ProviderOutcome :=
  fun _ => .thrown ⟨"boom", none⟩

/-- Witness for `generateReply_allFail_defined_error` with an always-failing
provider. -/
theorem generateReply_allFail_defined_error_wit :
    (∃ e, (generateReply ⟨some "groq", none, some "k1"⟩ oracleBoom [] "q" 2).2 =
      Except.error e) ∧
    ∀ s, (generateReply ⟨some "groq", none, some "k1"⟩ oracleBoom [] "q" 2).2 ≠
      Except.ok s :=
  generateReply_allFail_defined_error ⟨some "groq", none, some "k1"⟩ oracleBoom [] "q" 2 rfl
    (fun _ => ⟨⟨"boom", none⟩, rfl⟩)

/-- C6: a `POST /chat/message` request whose message is missing, not a
string, empty after trimming, or longer than 1000 characters gets an HTTP 400
response, leaves the store untouched (no conversation created, no message
persisted) and produces no provider events. -/
theorem postChatMessage_invalid_400 (env : Env) (oracle : Nat → ProviderOutcome)
    (req : ChatRequest) (st : Store)
    (hbad : req.message = none ∨ req.message = some .nonString ∨
      ∃ s, req.message = some (.str s) ∧ (jsTrim s = "" ∨ s.length > 1000)) :
    (postChatMessage env oracle req st).resp.status = 400 ∧
    (postChatMessage env oracle req st).store = st ∧
    (postChatMessage env oracle req st).events = [] := by
  obtain ⟨m, sid⟩ := req
  rcases hbad with rfl | rfl | ⟨s, rfl, hbad⟩
  · exact ⟨rfl, rfl, rfl⟩
  · exact ⟨rfl, rfl, rfl⟩
  · rcases hbad with htrim | hlong
    · simp [postChatMessage, htrim]
    · by_cases htrim : s = "" ∨ jsTrim s = ""
      · simp [postChatMessage, htrim]
      · simp [postChatMessage, htrim, hlong]

/-- Witness for `postChatMessage_invalid_400`: a whitespace-only message is
rejected with 400 and no side effects. -/
theorem postChatMessage_invalid_400_wit :
    (postChatMessage ⟨none, none, some "k"⟩ (fun _ => .completion (some "x"))
        ⟨some (.str "   "), none⟩ ⟨[], 0⟩).resp.status = 400 ∧
    (postChatMessage ⟨none, none, some "k"⟩ (fun _ => .completion (some "x"))
        ⟨some (.str "   "), none⟩ ⟨[], 0⟩).store = ⟨[], 0⟩ ∧
    (postChatMessage ⟨none, none, some "k"⟩ (fun _ => .completion (some "x"))
        ⟨some (.str "   "), none⟩ ⟨[], 0⟩).events = [] :=
  postChatMessage_invalid_400 ⟨none, none, some "k"⟩ (fun _ => .completion (some "x"))
    ⟨some (.str "   "), none⟩ ⟨[], 0⟩
    (Or.inr (Or.inr ⟨"   ", rfl, Or.inl (by decide)⟩))

/-- Looking a conversation up after `saveMessage` to it sees exactly the old
conversation with the new message appended. -/
theorem findConv_saveMessage (st : Store) (cid sender text : String) :
    findConv (saveMessage cid sender text st) cid =
      (findConv st cid).map (fun c => ⟨c.id, c.messages ++ [⟨sender, text⟩]⟩) := by
  obtain ⟨convs, nid⟩ := st
  induction convs with
  | nil => rfl
  | cons c cs ih =>
    by_cases h : c.id = cid
    · simp [findConv, saveMessage, h]
    · simp only [findConv, saveMessage, List.map_cons] at ih ⊢
      rw [if_neg h]
      rw [List.find?_cons_of_neg, List.find?_cons_of_neg]
      · exact ih
      · simpa using h
      · simpa using h

/-- The conversation `getOrCreateConversation` returns can be found in the
store it returns, provided the database-minted fresh id is not already taken
(always true of the real store, whose ids are unique). -/
theorem getOrCreate_findConv (sid : Option String) (st : Store)
    (hfresh : findConv st (freshId st.nextId) = none) :
    findConv (getOrCreateConversation sid st).2 (getOrCreateConversation sid st).1.id =
      some (getOrCreateConversation sid st).1 := by
  have hcreate : findConv (createConversation st).2 (createConversation st).1.id =
      some (createConversation st).1 := by
    simp only [createConversation, findConv] at hfresh ⊢
    rw [List.find?_append, hfresh]
    simp
  cases sid with
  | none => exact hcreate
  | some s =>
    by_cases hs : s = ""
    · simpa [getOrCreateConversation, hs] using hcreate
    · cases hf : findConv st s with
      | some c =>
        have hcid : c.id = s := by
          have hp := List.find?_some hf
          simpa using hp
        simp only [getOrCreateConversation, hs, if_neg, hf]
        simpa [hcid] using hf
      | none => simpa [getOrCreateConversation, hs, hf] using hcreate

/-- C3: whenever `generateReply` fails after the input validation of
`POST /chat/message` has passed, the handler still answers HTTP 200, its
reply is the fixed fallback string selected by the failure cause
(configuration vs. 401 authentication vs. 429 overload vs. generic), and that
fallback text is persisted as the `ai` message of the conversation right after
the message of the user. -/
theorem postChatMessage_llm_failure_fallback (env : Env) (oracle : Nat → ProviderOutcome)
    (st : Store) (s : String) (sidIn : Option String) (e : ThrownError)
    (hne : jsTrim s ≠ "") (hlen : s.length ≤ 1000)
    (hfresh : findConv st (freshId st.nextId) = none)
    (hllm : (generateReply env oracle
        (getOrCreateConversation (jsOrNull sidIn) st).1.messages (jsTrim s) 2).2 =
      Except.error e) :
    (postChatMessage env oracle ⟨some (.str s), sidIn⟩ st).resp.status = 200 ∧
    (postChatMessage env oracle ⟨some (.str s), sidIn⟩ st).resp.reply =
      some (fallbackFor e) ∧
    (postChatMessage env oracle ⟨some (.str s), sidIn⟩ st).resp.sessionId =
      some (getOrCreateConversation (jsOrNull sidIn) st).1.id ∧
    findConv (postChatMessage env oracle ⟨some (.str s), sidIn⟩ st).store
        (getOrCreateConversation (jsOrNull sidIn) st).1.id =
      some ⟨(getOrCreateConversation (jsOrNull sidIn) st).1.id,
        (getOrCreateConversation (jsOrNull sidIn) st).1.messages ++
          [⟨"user", jsTrim s⟩, ⟨"ai", fallbackFor e⟩]⟩ ∧
    (fallbackFor e = configFallback ∨ fallbackFor e = authFallback ∨
      fallbackFor e = overloadFallback ∨ fallbackFor e = genericFallback) := by
  have hs0 : ¬(s = "" ∨ jsTrim s = "") := by
    rintro (rfl | h)
    · exact hne rfl
    · exact hne h
  have hlen' : ¬(s.length > 1000) := by omega
  simp only [postChatMessage, hs0, hlen', if_neg, if_false, ite_false, hllm]
  refine ⟨trivial, trivial, trivial, ?_, ?_⟩
  · rw [findConv_saveMessage, findConv_saveMessage, getOrCreate_findConv _ _ hfresh]
    simp
  · unfold fallbackFor
    split_ifs <;> simp

/-- Witness for `postChatMessage_llm_failure_fallback`: with no provider key
configured, the handler answers 200 with the configuration fallback and
persists it as the `ai` message of the fresh conversation. -/
theorem postChatMessage_llm_failure_fallback_wit :
    (postChatMessage ⟨none, none, none⟩ (fun _ => .completion (some "x"))
        ⟨some (.str "Hi"), none⟩ ⟨[], 0⟩).resp.status = 200 ∧
    (postChatMessage ⟨none, none, none⟩ (fun _ => .completion (some "x"))
        ⟨some (.str "Hi"), none⟩ ⟨[], 0⟩).resp.reply =
      some (fallbackFor ⟨"GROQ_API_KEY is not configured. Please set it in your .env file.", none⟩) ∧
    (postChatMessage ⟨none, none, none⟩ (fun _ => .completion (some "x"))
        ⟨some (.str "Hi"), none⟩ ⟨[], 0⟩).resp.sessionId =
      some (getOrCreateConversation (jsOrNull none) ⟨[], 0⟩).1.id ∧
    findConv (postChatMessage ⟨none, none, none⟩ (fun _ => .completion (some "x"))
          ⟨some (.str "Hi"), none⟩ ⟨[], 0⟩).store
        (getOrCreateConversation (jsOrNull none) ⟨[], 0⟩).1.id =
      some ⟨(getOrCreateConversation (jsOrNull none) ⟨[], 0⟩).1.id,
        (getOrCreateConversation (jsOrNull none) ⟨[], 0⟩).1.messages ++
          [⟨"user", jsTrim "Hi"⟩,
            ⟨"ai", fallbackFor
              ⟨"GROQ_API_KEY is not configured. Please set it in your .env file.", none⟩⟩]⟩ ∧
    (fallbackFor ⟨"GROQ_API_KEY is not configured. Please set it in your .env file.", none⟩ =
        configFallback ∨
      fallbackFor ⟨"GROQ_API_KEY is not configured. Please set it in your .env file.", none⟩ =
        authFallback ∨
      fallbackFor ⟨"GROQ_API_KEY is not configured. Please set it in your .env file.", none⟩ =
        overloadFallback ∨
      fallbackFor ⟨"GROQ_API_KEY is not configured. Please set it in your .env file.", none⟩ =
        genericFallback) :=
  postChatMessage_llm_failure_fallback ⟨none, none, none⟩ (fun _ => .completion (some "x"))
    ⟨[], 0⟩ "Hi" none ⟨"GROQ_API_KEY is not configured. Please set it in your .env file.", none⟩
    (by decide) (by decide) rfl rfl

end ShopChat
